import Mathlib

/-!
Shallow embedding of `bbackup.py` (borg-backup orchestration pipeline):
configuration merging (`read_config` and the `dict.update` call in
`do_backup`), the gateway-MAC network gate (`get_router_mac_address` and the
`mac-whitelist` check in `do_backup`), the step sequencing and exit-code
aggregation of `do_backup`, the `tee` output-duplication loop, the log-file
open mode, the prune step's host-scoped archive glob, and
`format_timedelta`.  External subprocesses (borg, logrotate, `ip`) are
modelled by the data they return: exit codes, routing-table entries and
neighbour-table entries.
-/

namespace BBackup

/-- Python `str.lower`, as applied to MAC-address strings and whitelist
entries.  On the ASCII strings involved it agrees with `Char.toLower`
per character. -/
def pyLower (s : String) : String := ⟨s.data.map Char.toLower⟩

/-- The data `get_router_mac_address` reads from the outside world: the
routing table (`ip --json route list`, modelled as (dst, gateway) pairs)
and the neighbour table (`ip --json neigh`, modelled as (dst, lladdr)
pairs).  The best-effort `ping` has no observable effect in the model. -/
structure GateWorld where
  routes : List (String × String)
  neighbours : List (String × String)
deriving DecidableEq, Repr

/-- The exceptions `do_backup` can raise in the modelled fragment:
the four `RuntimeError`s of `get_router_mac_address`, and Python's
`UnboundLocalError` for a local variable referenced before assignment. -/
inductive RunError where
  | noGatewayIP : RunError
  | multipleGatewayIPs : RunError
  | noGatewayMAC : RunError
  | multipleGatewayMACs : RunError
  | unboundLocal : String → RunError
deriving DecidableEq, Repr

/-- `gateway_ips` in `get_router_mac_address`: the gateway of every
routing-table entry whose `dst` is `"default"`. -/
def defaultGatewayIps (g : GateWorld) : List String :=
  (g.routes.filter (fun r => r.1 == "default")).map Prod.snd

/-- `gateway_macs` in `get_router_mac_address`: the `lladdr` of every
neighbour-table entry whose `dst` is the given gateway IP. -/
def gatewayMacsFor (g : GateWorld) (ip : String) : List String :=
  (g.neighbours.filter (fun n => n.1 == ip)).map Prod.snd

/-- `get_router_mac_address`: resolve the default route's gateway IP
(raising unless there is exactly one distinct one), then the gateway's
link-layer address (raising unless there is exactly one distinct one),
and return it lower-cased.  Python's `len(set(xs))` is
`xs.dedup.length`; `xs[0]` on the nonempty list is `xs.headD ""`. -/
def getRouterMacAddress (g : GateWorld) : Except RunError String :=
  let gatewayIps := defaultGatewayIps g
  if gatewayIps.dedup.length = 0 then
    Except.error RunError.noGatewayIP
  else if 1 < gatewayIps.dedup.length then
    Except.error RunError.multipleGatewayIPs
  else
    let gatewayIp := gatewayIps.headD ""
    let gatewayMacs := gatewayMacsFor g gatewayIp
    if gatewayMacs.dedup.length = 0 then
      Except.error RunError.noGatewayMAC
    else if 1 < gatewayMacs.dedup.length then
      Except.error RunError.multipleGatewayMACs
    else
      Except.ok (pyLower (gatewayMacs.headD ""))

/-- Python tuple `<` (lexicographic, a strict prefix is smaller), used for
`borg_version >= (1, 2, 0)`. -/
def tupleLT : List Nat → List Nat → Bool
  | [], [] => false
  | [], _ :: _ => true
  | _ :: _, [] => false
  | a :: as, b :: bs => a < b || (a == b && tupleLT as bs)

/-- Everything `do_backup` observes from configuration and subprocesses in
the modelled fragment: the optional `mac-whitelist` config entry, the gate's
world, the optional `compact` config entry, the parsed borg version, and
the exit codes the four subprocess steps would return if run. -/
structure World where
  macWhitelist : Option (List String)
  gate : GateWorld
  compactSetting : Option Bool
  borgVersion : List Nat
  createCode : Int
  pruneCode : Int
  compactCode : Int
  logrotateCode : Int
deriving DecidableEq, Repr

/-- `do_compaction = config.get("compact", borg_version >= (1, 2, 0))`. -/
def doCompaction (w : World) : Bool :=
  w.compactSetting.getD (!tupleLT w.borgVersion [1, 2, 0])

/-- The step sequence of `do_backup` after the gate has decided to proceed:
create, prune, conditionally compact, then the in-log summary loop (which
reads the local variable `compact_result` — unbound when the compaction
branch was not taken, so Python raises `UnboundLocalError` there, before
logrotate runs), then logrotate, then
`max(create_result, prune_result, compact_result, logrotate_result)`.
Returns the names of the subprocess steps actually spawned, paired with
the aggregate exit code or the exception raised. -/
def runSteps (w : World) : List String × Except RunError Int :=
  let createResult := w.createCode
  let pruneResult := w.pruneCode
  if doCompaction w then
    let compactResult := w.compactCode
    let logrotateResult := w.logrotateCode
    (["create", "prune", "compact", "logrotate"],
      Except.ok (max (max (max createResult pruneResult) compactResult)
        logrotateResult))
  else
    (["create", "prune"],
      Except.error (RunError.unboundLocal "compact_result"))

/-- The gate-plus-steps fragment of `do_backup` (source lines 121–257).
If `"mac-whitelist"` is configured, resolve the router MAC (exceptions
propagate with no step spawned); if it is not in the lower-cased
whitelist, return exit code 0 with no step spawned; otherwise, and when no
whitelist is configured, run the steps. -/
def do_backup (w : World) : List String × Except RunError Int :=
  match w.macWhitelist with
  | some whitelist =>
    match getRouterMacAddress w.gate with
    | Except.error e => ([], Except.error e)
    | Except.ok routerMac =>
      if routerMac ∈ whitelist.map pyLower then runSteps w
      else ([], Except.ok 0)
  | none => runSteps w

/-- The read/duplicate loop of `tee`: the child's merged stdout/stderr is
read one byte at a time until the empty read at end-of-stream; each byte
is written (in order) to the console (`sys.stdout.buffer`) and to the open
log-file handle.  The two accumulators are the bytes written to each sink
so far. -/
def teeLoop : List Nat → List Nat → List Nat → List Nat × List Nat
  | [], console, logBytes => (console, logBytes)
  | b :: rest, console, logBytes =>
    teeLoop rest (console ++ [b]) (logBytes ++ [b])

/-- `tee`: run the child (modelled by its output stream and return code),
duplicate its output into the console and the log file, wait, and return
the child's return code together with what was written to each sink. -/
def tee (childStream : List Nat) (childReturncode : Int) :
    List Nat × List Nat × Int :=
  let sinks := teeLoop childStream [] []
  (sinks.1, sinks.2, childReturncode)

/-- A parsed YAML configuration document, as far as the claims need it:
`yaml.safe_load` of an empty document is Python `None` (`null`), and of a
mapping is a dict, modelled as a partial map from keys to values. -/
def Config : Type := String → Option String

/-- The empty dict `{}`. -/
def emptyConfig : Config := fun _ => none

/-- What `yaml.safe_load` returned for a `config.yaml` file. -/
inductive YamlDoc where
  | null : YamlDoc
  | mapping : Config → YamlDoc

/-- The state of a `config.yaml` path on disk: absent, or present with a
given parse result. -/
inductive FileState where
  | absent : FileState
  | present : YamlDoc → FileState

/-- The exceptions the `config.update(...)` merge can raise: calling
`.update` on `None`, and passing `None` to `.update`. -/
inductive PyError where
  | attributeError : PyError
  | typeError : PyError
deriving DecidableEq, Repr

/-- `read_config`: if the file is absent return `{}`; otherwise return
whatever `yaml.safe_load` produced — `None` (modelled as `none`) for an
empty document, the dict for a mapping. -/
def read_config : FileState → Option Config
  | FileState.absent => some emptyConfig
  | FileState.present YamlDoc.null => none
  | FileState.present (YamlDoc.mapping m) => some m

/-- Python `dict.update`: for keys the second dict defines, its value
wins; all other keys keep the first dict's value. -/
def dictUpdate (c d : Config) : Config :=
  fun k => match d k with
  | some v => some v
  | none => c k

/-- The configuration-resolution step of `do_backup` (source lines 85–86):
`config = read_config(global); config.update(read_config(local))`.
`None.update` raises `AttributeError`; `dict.update(None)` raises
`TypeError`. -/
def mergeConfigs (globalFile localFile : FileState) :
    Except PyError Config :=
  match read_config globalFile with
  | none => Except.error PyError.attributeError
  | some g =>
    match read_config localFile with
    | none => Except.error PyError.typeError
    | some l => Except.ok (dictUpdate g l)

/-- The mode string with which `do_backup` opens the job's log file:
`open(log_file, "bw")`. -/
def logOpenMode : String := "bw"

/-- Python `open` on a binary file: the file's contents right after the
open, as a function of its contents before.  A mode containing `a`
appends (prior bytes kept); otherwise a mode containing `w` truncates. -/
def openInitialContents (mode : String) (priorBytes : List Nat) :
    List Nat :=
  if mode.data.contains 'a' then priorBytes
  else if mode.data.contains 'w' then []
  else priorBytes

/-- The job's log file at the end of a run: the contents the open left in
place, followed by the bytes the run wrote through the handle. -/
def logFileAfterRun (priorBytes written : List Nat) : List Nat :=
  openInitialContents logOpenMode priorBytes ++ written

/-- The archive glob the prune step passes as `--glob-archives`:
`"{hostname}-*"`, with `{hostname}` expanded by the archival tool to the
host's name. -/
def pruneGlob (hostname : String) : String := hostname ++ "-*"

/-- Modelled from the spec: the wrapped archival tool's glob matching for
`--glob-archives` (the tool itself is an external collaborator).  `*`
matches any sequence of characters, every other pattern character matches
itself. -/
def globMatch : List Char → List Char → Bool
  | [], s => s.isEmpty
  | p :: ps, s =>
    if p == Char.ofNat 42 then s.tails.any (fun t => globMatch ps t)
    else
      match s with
      | [] => false
      | c :: rest => p == c && globMatch ps rest

/-- Python `datetime.timedelta`: normalized so that `seconds` is the
seconds-within-a-day component, `0 ≤ seconds < 86400`. -/
structure Timedelta where
  days : Int
  seconds : Nat
  microseconds : Nat
deriving DecidableEq, Repr

/-- The `timedelta` Python produces for a nonnegative whole-second
duration (normalization splits off whole days). -/
def timedeltaOfSeconds (total : Nat) : Timedelta :=
  { days := (total / 86400 : Nat), seconds := total % 86400,
    microseconds := 0 }

/-- `format_timedelta`: `m, s = divmod(td.seconds, 60)` then
`f"{m}m {s}s"`. -/
def format_timedelta (td : Timedelta) : String :=
  toString (td.seconds / 60) ++ "m " ++ toString (td.seconds % 60) ++ "s"

/-! ## Supporting lemmas -/

theorem teeLoop_spec (stream console logBytes : List Nat) :
    teeLoop stream console logBytes =
      (console ++ stream, logBytes ++ stream) := by
  induction stream generalizing console logBytes with
  | nil => simp [teeLoop]
  | cons b rest ih => simp [teeLoop, ih]

theorem runSteps_fst_ne_nil (w : World) : (runSteps w).1 ≠ [] := by
  unfold runSteps
  by_cases h : doCompaction w <;> simp [h]

/-! ## Claim theorems -/

/-- C1 (code bug): with no network gate configured and compaction
disabled (`compact: false` in the config), `do_backup` runs create
(exiting 1) and prune (exiting 0) and then raises `UnboundLocalError` on
`compact_result` in the summary loop, instead of returning the maximum
exit code (1) of the executed steps; logrotate is never spawned. -/
theorem aggregate_crash_when_compact_skipped :
    do_backup ⟨none, ⟨[], []⟩, some false, [1, 2, 6], 1, 0, 0, 0⟩ =
      (["create", "prune"],
        Except.error (RunError.unboundLocal "compact_result")) := by
  rfl

/-- C3 counterexample: the log file is opened with mode `"bw"`, which
truncates, so a byte present before the run is not preserved: with prior
contents `[1]` and nothing written, the file afterwards does not have
`[1]` as a prefix (it is empty). -/
theorem log_open_preserves_prior_cex :
    ([1].isPrefixOf (logFileAfterRun [1] []) = false) ∧
      logFileAfterRun [1] [] = [] := by
  constructor <;> rfl

/-- C3 (amended): the log file is opened in write/binary mode (`"bw"`),
which truncates: after the run the file holds exactly the bytes written
during the run, and any bytes present before the run are discarded. -/
theorem log_open_truncates (priorBytes written : List Nat) :
    logFileAfterRun priorBytes written = written := by
  simp [logFileAfterRun, openInitialContents, logOpenMode]

/-- C5: the tee loop is lossless: the byte sequence written to the
console equals the byte sequence written to the log file, both equal the
child's merged output stream, and `tee` returns the child's return
code. -/
theorem tee_lossless (childStream : List Nat) (childReturncode : Int) :
    tee childStream childReturncode =
      (childStream, childStream, childReturncode) := by
  simp [tee, teeLoop_spec]

/-- C6: the configuration merge override law: merging a present global
mapping with a present local mapping succeeds and applies
`dict.update`; a key the local document defines resolves to the local
value; a key only the global document defines resolves to the global
value; and an absent local file is treated as the empty document, so
every key then resolves to its global value. -/
theorem config_merge_laws (g l : Config) (k : String) :
    mergeConfigs (FileState.present (YamlDoc.mapping g))
        (FileState.present (YamlDoc.mapping l)) =
      Except.ok (dictUpdate g l) ∧
    (∀ v, l k = some v → dictUpdate g l k = some v) ∧
    (l k = none → dictUpdate g l k = g k) ∧
    mergeConfigs (FileState.present (YamlDoc.mapping g))
        FileState.absent =
      Except.ok (dictUpdate g emptyConfig) ∧
    dictUpdate g emptyConfig k = g k := by
  refine ⟨rfl, ?_, ?_, rfl, rfl⟩
  · intro v hv
    simp [dictUpdate, hv]
  · intro hv
    simp [dictUpdate, hv]

/-- An example global configuration document: defines `repo-path` and
`shared`. -/
def gEx : Config :=
  fun k => if k == "repo-path" then some "X"
    else if k == "shared" then some "G" else none

/-- An example local configuration document: defines only `shared`. -/
def lEx : Config := fun k => if k == "shared" then some "L" else none

/-- C6 witness: at the example documents, the shared key resolves to the
local value and the global-only key `repo-path` to the global value. -/
theorem config_merge_laws_witness :
    dictUpdate gEx lEx "shared" = some "L" ∧
      dictUpdate gEx lEx "repo-path" = some "X" := by
  have h := config_merge_laws gEx lEx "shared"
  have h2 := config_merge_laws gEx lEx "repo-path"
  refine ⟨h.2.1 "L" rfl, ?_⟩
  have := h2.2.2.1 rfl
  rw [this]
  rfl

/-- C9: a `config.yaml` that exists but parses to the empty YAML document
makes `read_config` return Python `None`; the subsequent merge then
raises (`AttributeError` if it is the global file, `TypeError` if it is
the local file), so the run fails during configuration resolution instead
of treating the present-but-empty document as an empty mapping. -/
theorem empty_config_file_fails (g : Config) (fs : FileState) :
    read_config (FileState.present YamlDoc.null) = none ∧
    mergeConfigs (FileState.present YamlDoc.null) fs =
      Except.error PyError.attributeError ∧
    mergeConfigs (FileState.present (YamlDoc.mapping g))
        (FileState.present YamlDoc.null) =
      Except.error PyError.typeError := by
  exact ⟨rfl, rfl, rfl⟩

/-- C10: `format_timedelta` renders only the seconds-within-a-day
component as minutes and seconds, ignoring the days component entirely,
so durations are reported modulo 24 hours: a 25-hour run is reported as
`60m 0s`. -/
theorem format_timedelta_ignores_days (td : Timedelta) (d : Int) :
    format_timedelta td =
      toString (td.seconds / 60) ++ "m " ++
        toString (td.seconds % 60) ++ "s" ∧
    format_timedelta { td with days := d } = format_timedelta td ∧
    format_timedelta (timedeltaOfSeconds (25 * 3600)) = "60m 0s" := by
  exact ⟨rfl, rfl, rfl⟩

/-- C4: when a MAC allow-list is configured and the resolved router MAC
is not in the lower-cased allow-list, `do_backup` returns aggregate exit
code 0 and spawns none of the create, prune, compact or log-rotation
subprocesses. -/
theorem gate_decline_returns_zero (w : World) (wl : List String)
    (m : String) (hwl : w.macWhitelist = some wl)
    (hmac : getRouterMacAddress w.gate = Except.ok m)
    (hnot : m ∉ wl.map pyLower) :
    do_backup w = ([], Except.ok 0) := by
  simp only [do_backup, hwl, hmac]
  rw [if_neg hnot]

/-- A run whose whitelist does not contain the router's MAC. -/
def wDecline : World :=
  ⟨some ["aa:aa:aa:aa:aa:aa"],
    ⟨[("default", "10.0.0.1")], [("10.0.0.1", "BB:CC:DD:EE:FF:00")]⟩,
    some true, [1, 2, 6], 0, 0, 0, 0⟩

/-- C4 witness: the declining run exits 0 with no step spawned. -/
theorem gate_decline_returns_zero_witness :
    do_backup wDecline = ([], Except.ok 0) :=
  gate_decline_returns_zero wDecline ["aa:aa:aa:aa:aa:aa"]
    "bb:cc:dd:ee:ff:00" rfl rfl (by decide)

/-- C7: with a MAC allow-list configured, if the routing table yields
zero or more than one distinct default-route gateway, or it yields
exactly one but the neighbour table yields zero or more than one distinct
link-layer address for that gateway IP, then `do_backup` raises (the
spec's `AmbiguousGateway` family) and aborts with no archival or
rotation subprocess spawned. -/
theorem gate_ambiguity_aborts (w : World) (wl : List String)
    (hwl : w.macWhitelist = some wl)
    (hamb : (defaultGatewayIps w.gate).dedup.length ≠ 1 ∨
      ((defaultGatewayIps w.gate).dedup.length = 1 ∧
        (gatewayMacsFor w.gate
          ((defaultGatewayIps w.gate).headD "")).dedup.length ≠ 1)) :
    ∃ e, do_backup w = ([], Except.error e) := by
  have hg : ∃ e, getRouterMacAddress w.gate = Except.error e := by
    simp only [getRouterMacAddress]
    split_ifs with h0 h1 h2 h3
    · exact ⟨_, rfl⟩
    · exact ⟨_, rfl⟩
    · exact ⟨_, rfl⟩
    · exact ⟨_, rfl⟩
    · exfalso
      rcases hamb with h | ⟨_, h⟩ <;> omega
  obtain ⟨e, he⟩ := hg
  exact ⟨e, by simp only [do_backup, hwl, he]⟩

/-- A run whose routing table reports two distinct default gateways. -/
def wAmbiguous : World :=
  ⟨some ["aa:aa:aa:aa:aa:aa"],
    ⟨[("default", "10.0.0.1"), ("default", "10.0.0.2")], []⟩,
    some true, [1, 2, 6], 0, 0, 0, 0⟩

/-- C7 witness: with two distinct default-route gateways the run aborts
with an exception before any subprocess is spawned. -/
theorem gate_ambiguity_aborts_witness :
    ∃ e, do_backup wAmbiguous = ([], Except.error e) :=
  gate_ambiguity_aborts wAmbiguous ["aa:aa:aa:aa:aa:aa"] rfl
    (Or.inl (by decide))

/-- C8: with a MAC allow-list configured and the gateway resolving (via
single routing-table and neighbour-table entries) to a raw link-layer
address, the gate proceeds to the backup steps if and only if the
lower-cased resolved address is a member of the lower-cased allow-list. -/
theorem mac_match_case_insensitive (wl : List String)
    (ip rawMac : String) (cset : Option Bool) (bv : List Nat)
    (c p k l : Int) :
    (do_backup ⟨some wl, ⟨[("default", ip)], [(ip, rawMac)]⟩,
        cset, bv, c, p, k, l⟩).1 ≠ [] ↔
      pyLower rawMac ∈ wl.map pyLower := by
  have hg : getRouterMacAddress ⟨[("default", ip)], [(ip, rawMac)]⟩ =
      Except.ok (pyLower rawMac) := by
    simp [getRouterMacAddress, defaultGatewayIps, gatewayMacsFor]
  by_cases hm : pyLower rawMac ∈ wl.map pyLower
  · simp only [do_backup, hg, if_pos hm]
    exact iff_of_true (runSteps_fst_ne_nil _) hm
  · simp only [do_backup, hg, if_neg hm]
    simp [hm]

/-- C8 witness: Scenario B: the gateway resolves to
`aa:bb:cc:dd:ee:ff`, the allow-list contains `AA:BB:CC:DD:EE:FF`, and
the gate proceeds (steps are spawned). -/
theorem mac_match_case_insensitive_witness :
    (do_backup ⟨some ["AA:BB:CC:DD:EE:FF"],
        ⟨[("default", "192.168.1.1")],
          [("192.168.1.1", "aa:bb:cc:dd:ee:ff")]⟩,
        some true, [1, 2, 6], 0, 0, 0, 0⟩).1 ≠ [] :=
  (mac_match_case_insensitive ["AA:BB:CC:DD:EE:FF"] "192.168.1.1"
    "aa:bb:cc:dd:ee:ff" (some true) [1, 2, 6] 0 0 0 0).mpr (by decide)

theorem tails_any_isEmpty (s : List Char) :
    s.tails.any (fun t => t.isEmpty) = true := by
  induction s with
  | nil => rfl
  | cons c rest ih => simp [List.tails, List.any, ih]

theorem globMatch_star (s : List Char) :
    globMatch [Char.ofNat 42] s = true := by
  simp [globMatch, tails_any_isEmpty s]

theorem globMatch_literal_star (p : List Char)
    (hp : p.all (fun c => !(c == Char.ofNat 42)) = true) (s : List Char) :
    globMatch (p ++ [Char.ofNat 42]) s = p.isPrefixOf s := by
  induction p generalizing s with
  | nil =>
    rw [List.nil_append, globMatch_star]
    cases s <;> rfl
  | cons a p ih =>
    simp only [List.all_cons, Bool.and_eq_true] at hp
    obtain ⟨ha, hp⟩ := hp
    simp only [List.cons_append, globMatch]
    rw [if_neg (by simpa using ha)]
    cases s with
    | nil => rfl
    | cons c rest =>
      simp only [List.isPrefixOf, List.append_eq]
      rw [ih hp]

/-- C2 counterexample: the prune globs of the two distinct host names
`a` and `a-b` both match the archive name `a-b-c`, so the two generated
patterns are not disjoint for every pair of distinct host names. -/
theorem prune_glob_overlap_cex :
    ("a" ≠ "a-b") ∧
      globMatch (pruneGlob "a").data "a-b-c".data = true ∧
      globMatch (pruneGlob "a-b").data "a-b-c".data = true := by
  exact ⟨by decide, by decide, by decide⟩

/-- C2 (amended): for host names containing no `*` wildcard character,
if neither host name followed by `-` is a prefix of the other followed
by `-` (equivalently, the names are distinct and neither continues the
other after a `-`), then the prune globs generated for the two hosts
match no common archive name: the patterns are disjoint. -/
theorem prune_glob_disjoint (h1 h2 a : String)
    (hl1 : h1.data.all (fun c => !(c == Char.ofNat 42)) = true)
    (hl2 : h2.data.all (fun c => !(c == Char.ofNat 42)) = true)
    (hs1 : ¬ (h1.data ++ [Char.ofNat 45]) <+: (h2.data ++ [Char.ofNat 45]))
    (hs2 : ¬ (h2.data ++ [Char.ofNat 45]) <+: (h1.data ++ [Char.ofNat 45])) :
    ¬ (globMatch (pruneGlob h1).data a.data = true ∧
        globMatch (pruneGlob h2).data a.data = true) := by
  rintro ⟨m1, m2⟩
  have e1 : (pruneGlob h1).data = (h1.data ++ [Char.ofNat 45]) ++ [Char.ofNat 42] := by
    simp [pruneGlob]
  have e2 : (pruneGlob h2).data = (h2.data ++ [Char.ofNat 45]) ++ [Char.ofNat 42] := by
    simp [pruneGlob]
  have lit1 : (h1.data ++ [Char.ofNat 45]).all
      (fun c => !(c == Char.ofNat 42)) = true := by
    simp only [List.all_append, Bool.and_eq_true]
    exact ⟨hl1, by decide⟩
  have lit2 : (h2.data ++ [Char.ofNat 45]).all
      (fun c => !(c == Char.ofNat 42)) = true := by
    simp only [List.all_append, Bool.and_eq_true]
    exact ⟨hl2, by decide⟩
  rw [e1, globMatch_literal_star _ lit1] at m1
  rw [e2, globMatch_literal_star _ lit2] at m2
  have p1 : (h1.data ++ [Char.ofNat 45]) <+: a.data :=
    List.isPrefixOf_iff_prefix.mp m1
  have p2 : (h2.data ++ [Char.ofNat 45]) <+: a.data :=
    List.isPrefixOf_iff_prefix.mp m2
  rcases List.prefix_or_prefix_of_prefix p1 p2 with h | h
  · exact hs1 h
  · exact hs2 h

/-- C2 witness: the amended disjointness at the host names `host1` and
`host2` and the archive name `host1-a`. -/
theorem prune_glob_disjoint_witness :
    ¬ (globMatch (pruneGlob "host1").data "host1-a".data = true ∧
        globMatch (pruneGlob "host2").data "host1-a".data = true) :=
  prune_glob_disjoint "host1" "host2" "host1-a" (by decide) (by decide)
    (by decide) (by decide)

end BBackup
